import Mathlib

/-!
Shallow embedding of the tool-operation lifecycle engine of the
rinai-multimodal-Intents-agent repository, and proofs settling the frozen
claims about it.

Sources embedded:
  * src/db/db_schema.py        (enums, RinDB collection operations)
  * src/managers/tool_state_manager.py   (ToolStateManager)
  * src/managers/agent_state_manager.py  (AgentStateManager)
  * src/tools/intents_operation.py       (IntentsTool._handle_withdraw)

The MongoDB collections are modelled as Lean lists of records; `find_one`
is `List.find?` (first match in insertion order), `insert_one` appends,
`update_one`/`find_one_and_update` rewrite the first matching record and
`update_many` rewrites every matching record.  `datetime.now(UTC)` is an
explicit `now : Nat` tick passed to every writing function.  Python dicts
whose keys the embedded code never inspects are association lists over a
small value type `JVal`, with right-biased merge for `{**a, **b}`.
-/

/-- ToolOperationState enum from src/db/db_schema.py. -/
inductive ToolOperationState
  | inactive
  | collecting
  | approving
  | executing
  | completed
  | error
  | cancelled
deriving DecidableEq, Repr

/-- String values of ToolOperationState (the `.value` of the Python enum). -/
def ToolOperationState.value : ToolOperationState → String
  | .inactive => "inactive"
  | .collecting => "collecting"
  | .approving => "approving"
  | .executing => "executing"
  | .completed => "completed"
  | .error => "error"
  | .cancelled => "cancelled"

/-- OperationStatus enum from src/db/db_schema.py. -/
inductive OperationStatus
  | pending
  | approved
  | rejected
  | scheduled
  | executed
  | failed
deriving DecidableEq, Repr

/-- String values of OperationStatus (the `.value` of the Python enum). -/
def OperationStatus.value : OperationStatus → String
  | .pending => "pending"
  | .approved => "approved"
  | .rejected => "rejected"
  | .scheduled => "scheduled"
  | .executed => "executed"
  | .failed => "failed"

/-- Terminal operation states per the spec (COMPLETED, CANCELLED, ERROR). -/
def isTerminalState (s : ToolOperationState) : Bool :=
  s == .completed || s == .cancelled || s == .error

/-- Terminal item statuses per the spec (EXECUTED, REJECTED, FAILED). -/
def isTerminalStatus (s : OperationStatus) : Bool :=
  s == .executed || s == .rejected || s == .failed

/-- Opaque JSON-ish values stored in dict-valued fields the embedded code
never inspects field-by-field. -/
inductive JVal
  | s (v : String)
  | b (v : Bool)
  | n (v : Int)
  | strList (v : List String)
  | null
deriving DecidableEq, Repr

/-- Right-biased dict merge: Python `\x7b**a, **b\x7d` restricted to the keys
we track (keys of `b` override keys of `a`). -/
def mergeDict (a b : List (String × JVal)) : List (String × JVal) :=
  a.filter (fun kv => (b.find? (fun kv2 => kv2.1 == kv.1)).isNone) ++ b

/-- One `state_history` entry `{state, step, timestamp}` from
ToolStateManager.start_operation's metadata. -/
structure HistoryEntry where
  state : ToolOperationState
  step : String
  ts : Nat
deriving DecidableEq, Repr

/-- Operation metadata: the `state_history` list is tracked structurally,
all remaining keys (`item_states`, `end_reason`, ...) live in `extra`. -/
structure OpMetadata where
  state_history : List HistoryEntry
  extra : List (String × JVal)
deriving DecidableEq, Repr

/-- A metadata dict passed by a caller to update_operation; if it carries a
`state_history` key that key overrides the stored one on merge. -/
structure MetaPatch where
  state_history : Option (List HistoryEntry)
  extra : List (String × JVal)
deriving DecidableEq, Repr

/-- Python merge `{**existing, **patch, "last_modified": now.isoformat()}`
performed by ToolStateManager.update_operation when metadata is given. -/
def mergeMeta (m : OpMetadata) (p : MetaPatch) (now : Nat) : OpMetadata :=
  { state_history := p.state_history.getD m.state_history
    extra := mergeDict (mergeDict m.extra p.extra) [("last_modified", JVal.n now)] }

/-- A document of the rin.tool_operations collection, with the fields the
embedded code reads or writes. -/
structure ToolOperation where
  id : Nat
  session_id : String
  tool_type : String
  state : ToolOperationState
  step : String
  input_data : List (String × JVal)
  output_data : List (String × JVal)
  metadata : OpMetadata
  created_at : Nat
  last_updated : Nat
deriving DecidableEq, Repr

/-- A document of the rin.tool_items collection, with the fields the
embedded code reads or writes. -/
structure ToolItem where
  id : Nat
  session_id : String
  tool_operation_id : Nat
  state : ToolOperationState
  status : OperationStatus
  api_response : Option (List (String × JVal))
  executed_time : Option Nat
  last_updated : Nat
  retry_count : Nat
  last_error : Option String
  metadata : List (String × JVal)
deriving DecidableEq, Repr

/-- The database (RinDB): the two collections the claims touch. -/
structure DB where
  tool_operations : List ToolOperation
  tool_items : List ToolItem
deriving DecidableEq, Repr

/-- Mongo update_one / find_one_and_update: rewrite the first record that
matches `p` by `f`; the Bool reports whether a record matched. -/
def updateFirstF {α : Type} (l : List α) (p : α → Bool) (f : α → α) : Bool × List α :=
  match l with
  | [] => (false, [])
  | x :: xs =>
    if p x then (true, f x :: xs)
    else
      let r := updateFirstF xs p f
      (r.1, x :: r.2)

theorem updateFirstF_fst {α : Type} (l : List α) (p : α → Bool) (f : α → α) :
    (updateFirstF l p f).1 = (l.find? p).isSome := by
  induction l with
  | nil => rfl
  | cons x xs ih =>
    by_cases h : p x
    · simp [updateFirstF, List.find?, h]
    · simp only [updateFirstF, List.find?, h]
      simpa [h] using ih

theorem find?_updateFirstF {α : Type} (l : List α) (p : α → Bool) (f : α → α)
    (hf : ∀ x, p (f x) = p x) :
    List.find? p (updateFirstF l p f).2 = (List.find? p l).map f := by
  induction l with
  | nil => rfl
  | cons x xs ih =>
    by_cases h : p x
    · simp [updateFirstF, List.find?, h, hf]
    · simp only [updateFirstF, List.find?, h]
      simpa [h] using ih

/-! ## ToolStateManager (src/managers/tool_state_manager.py) -/

/-- The `valid_transitions` table built in ToolStateManager.__init__;
`Dict.get(current, [])` yields `[]` for states absent from the table. -/
def valid_transitions : ToolOperationState → List ToolOperationState
  | .inactive => [.collecting]
  | .collecting => [.approving, .error, .cancelled]
  | .approving => [.executing, .collecting, .error, .cancelled]
  | .executing => [.completed, .cancelled, .error]
  | _ => []

/-- ToolStateManager._is_valid_transition.  States are already canonical
enum values here, so the Python lowercase-normalisation is the identity. -/
def is_valid_transition (current new : ToolOperationState) : Bool :=
  (valid_transitions current).contains new

/-- ToolStateManager._get_step_for_state. -/
def get_step_for_state (s : ToolOperationState) : String :=
  match s with
  | .inactive => "inactive"
  | .collecting => "collecting"
  | .approving => "awaiting_approval"
  | .executing => "executing"
  | .completed => "completed"
  | .cancelled => "cancelled"
  | .error => "error"

/-- ToolStateManager._get_final_state: maps an OperationStatus to the final
ToolOperationState (current_state is only used for logging). -/
def get_final_state (status : OperationStatus) : ToolOperationState :=
  match status with
  | .approved => .completed
  | .failed => .error
  | .rejected => .cancelled
  | _ => .error

/-- The `initial_data` dict passed to start_operation, with the keys
start_operation reads. -/
structure InitialData where
  requires_approval : Option Bool
  command : Option String
  status : Option String
  operation_metadata : List (String × JVal)
deriving DecidableEq, Repr

/-- Lift an optional string to the stored JSON value. -/
def jopt : Option String → JVal
  | some v => JVal.s v
  | none => JVal.null

/-- ToolStateManager.start_operation.  `newId` is the fresh ObjectId and
`now` the clock.  A `none` initial_data makes the Python body raise
AttributeError on `initial_data.get`, which the enclosing `except` turns
into a `None` return with no insert; otherwise a new COLLECTING operation
is unconditionally inserted (there is no conflict check). -/
def start_operation (db : DB) (session_id : String) (operation_type : String)
    (initial_data : Option InitialData) (newId : Nat) (now : Nat) :
    Option ToolOperation × DB :=
  match initial_data with
  | none => (none, db)
  | some init =>
    let requires_approval := init.requires_approval.getD true
    let op : ToolOperation :=
      { id := newId
        session_id := session_id
        tool_type := operation_type
        state := .collecting
        step := "analyzing"
        input_data :=
          [("command", jopt init.command),
           ("status", jopt init.status),
           ("operation_metadata", JVal.null)]
        output_data :=
          [("status", JVal.s OperationStatus.pending.value),
           ("content", JVal.strList []),
           ("requires_approval", JVal.b requires_approval),
           ("pending_items", JVal.strList []),
           ("approved_items", JVal.strList []),
           ("rejected_items", JVal.strList [])]
        metadata :=
          { state_history := [{ state := .collecting, step := "analyzing", ts := now }]
            extra := [("item_states", JVal.null)] }
        created_at := now
        last_updated := now }
    (some op, { db with tool_operations := db.tool_operations ++ [op] })

/-- The `$set` document update_operation builds: values are computed from
the operation `cur` fetched by (id, session) and applied to the target of
the id-keyed find_one_and_update. -/
def applySetOp (cur : ToolOperation) (state : Option ToolOperationState)
    (step : Option String) (metadata : Option MetaPatch)
    (content_updates : Option (List (String × JVal))) (now : Nat)
    (target : ToolOperation) : ToolOperation :=
  { target with
    last_updated := now
    state := state.getD target.state
    step := step.getD target.step
    output_data :=
      match content_updates with
      | some cu => mergeDict cur.output_data cu
      | none => target.output_data
    metadata :=
      match metadata with
      | some p => mergeMeta cur.metadata p now
      | none => target.metadata }

/-- ToolStateManager.update_operation: fetch by (id, session); reject an
invalid state transition before any write; otherwise `$set` the update on
the first record with this id. -/
def update_operation (db : DB) (session_id : String) (tool_operation_id : Nat)
    (state : Option ToolOperationState) (step : Option String)
    (metadata : Option MetaPatch) (content_updates : Option (List (String × JVal)))
    (now : Nat) : Bool × DB :=
  match db.tool_operations.find?
      (fun op => op.id == tool_operation_id && op.session_id == session_id) with
  | none => (false, db)
  | some cur =>
    let ok := match state with
      | some s => is_valid_transition cur.state s
      | none => true
    if ok then
      let r := updateFirstF db.tool_operations (fun op => op.id == tool_operation_id)
        (applySetOp cur state step metadata content_updates now)
      (r.1, { db with tool_operations := r.2 })
    else (false, db)

/-- RinDB.get_tool_operation_state: `find_one({"session_id": session_id})`,
with no filter on the operation's state. -/
def get_tool_operation_state (db : DB) (session_id : String) : Option ToolOperation :=
  db.tool_operations.find? (fun op => op.session_id == session_id)

/-- ToolStateManager.get_operation simply delegates to
RinDB.get_tool_operation_state. -/
def get_operation (db : DB) (session_id : String) : Option ToolOperation :=
  get_tool_operation_state db session_id

/-- ToolStateManager.end_operation: fetch by (id, session), compute the
final state from the status, then update_operation with that state and the
enlarged metadata dict (the locally built output_data is discarded because
it is not passed to update_operation in the source). -/
def end_operation (db : DB) (session_id : String) (tool_operation_id : Nat)
    (status : OperationStatus) (reason : Option String)
    (api_response : Option (List (String × JVal)))
    (requires_approval : Bool) (is_scheduled : Bool) (now : Nat) : Bool × DB :=
  match db.tool_operations.find?
      (fun op => op.id == tool_operation_id && op.session_id == session_id) with
  | none => (false, db)
  | some cur =>
    let final_state := get_final_state status
    let patch : MetaPatch :=
      { state_history := some cur.metadata.state_history
        extra := mergeDict cur.metadata.extra
          [("end_time", JVal.n now),
           ("end_reason", jopt reason),
           ("final_status", JVal.s status.value),
           ("requires_approval", JVal.b requires_approval),
           ("is_scheduled", JVal.b is_scheduled)] }
    update_operation db session_id tool_operation_id (some final_state) none
      (some patch) none now

/-- ToolStateManager.update_operation_items: `update_many` setting state,
status, last_updated on every item whose id is listed and whose
tool_operation_id matches; returns modified_count > 0. -/
def update_operation_items (db : DB) (tool_operation_id : Nat)
    (item_ids : List Nat) (new_state : ToolOperationState)
    (new_status : OperationStatus) (now : Nat) : Bool × DB :=
  let matched := fun (it : ToolItem) =>
    item_ids.contains it.id && it.tool_operation_id == tool_operation_id
  let rewrite := fun (it : ToolItem) =>
    { it with state := new_state, status := new_status, last_updated := now }
  let items := db.tool_items.map (fun it => if matched it then rewrite it else it)
  let modified := db.tool_items.filter (fun it => matched it && rewrite it != it)
  (modified.length > 0, { db with tool_items := items })

/-- The status→state map in ToolStateManager.sync_items_to_operation_status. -/
def statusToState (s : OperationStatus) : Option ToolOperationState :=
  match s with
  | .approved => some .executing
  | .scheduled => some .executing
  | .executed => some .completed
  | .rejected => some .cancelled
  | .failed => some .error
  | .pending => none

/-- ToolStateManager.sync_items_to_operation_status: when the status is in
the map, `update_many` sets the mapped state (and last_updated) on every
item of the operation, with no exemption for items in a terminal status. -/
def sync_items_to_operation_status (db : DB) (tool_operation_id : Nat)
    (operation_status : OperationStatus) (now : Nat) : DB :=
  match statusToState operation_status with
  | none => db
  | some ns =>
    { db with tool_items := db.tool_items.map (fun it =>
        if it.tool_operation_id == tool_operation_id then
          { it with state := ns, last_updated := now }
        else it) }

/-! ## RinDB.update_tool_item_status (src/db/db_schema.py) -/

/-- Lookup of an operation by id (first match, as Mongo's `_id` lookup). -/
def findOpById (db : DB) (tool_operation_id : Nat) : Option ToolOperation :=
  db.tool_operations.find? (fun op => op.id == tool_operation_id)

/-- Number of stored operations of a session in a non-terminal state. -/
def countNonTerminal (db : DB) (session_id : String) : Nat :=
  (db.tool_operations.filter
    (fun op => op.session_id == session_id && !isTerminalState op.state)).length

/-! ## AgentStateManager (src/managers/agent_state_manager.py) -/

/-- Modelled from the spec: the AgentState enum lives in src/db/enums.py,
which is not part of the sources; §4.7 gives exactly the two states
NORMAL_CHAT and TOOL_OPERATION. -/
inductive AgentState
  | normal_chat
  | tool_operation
deriving DecidableEq, Repr

/-- String values of AgentState. -/
def AgentState.value : AgentState → String
  | .normal_chat => "normal_chat"
  | .tool_operation => "tool_operation"

/-- AgentAction enum from src/managers/agent_state_manager.py. -/
inductive AgentAction
  | start_tool
  | complete_tool
  | cancel_tool
  | error
deriving DecidableEq, Repr

/-- The `state_transitions` dict built in AgentStateManager.__init__. -/
def state_transitions : AgentState → AgentAction → Option AgentState
  | .normal_chat, .start_tool => some .tool_operation
  | .tool_operation, .complete_tool => some .normal_chat
  | .tool_operation, .cancel_tool => some .normal_chat
  | .tool_operation, .error => some .normal_chat
  | .normal_chat, .error => some .normal_chat
  | _, _ => none

/-- The in-memory state of an AgentStateManager instance. -/
structure AgentSM where
  current_state : AgentState
  current_tool_type : Option String
deriving DecidableEq, Repr

/-- AgentStateManager._transition_state: consults the table; on a miss the
state is untouched and False is returned. -/
def transition_state (sm : AgentSM) (a : AgentAction) : Bool × AgentSM :=
  match state_transitions sm.current_state a with
  | none => (false, sm)
  | some ns => (true, { sm with current_state := ns })

/-- A dict returned by Orchestrator.handle_tool_operation, with the keys
AgentStateManager reads. -/
structure OrchResult where
  status : Option String
  response : Option String
deriving DecidableEq, Repr

/-- What the awaited orchestrator call does: returns a dict, returns a
non-dict value, or raises. -/
inductive OrchOutcome
  | ok (r : OrchResult)
  | nonDict
  | exn (msg : String)
deriving DecidableEq, Repr

/-- The reply envelope handle_agent_state builds (the keys it can set). -/
structure AgentResponse where
  state : String
  status : Option String
  error : Option String
  response : Option String
  tool_type : Option String
deriving DecidableEq, Repr

/-- AgentStateManager._create_error_response. -/
def create_error_response (sm : AgentSM) (error_message : String) : AgentResponse :=
  { state := sm.current_state.value
    status := some "error"
    error := some error_message
    response := none
    tool_type := none }

/-- AgentStateManager.handle_agent_state.  The trigger detector's answer
and the orchestrator call's outcome are inputs.  Exceptions from the
orchestrator are caught by the surrounding handlers, which build an error
response and deliberately do not transition the state ("Don't transition
state on error - let approval_manager handle it"). -/
def handle_agent_state (sm : AgentSM) (message : String) (trigger : Option String)
    (orch : OrchOutcome) : AgentSM × AgentResponse :=
  if message == "" then
    (sm, create_error_response sm "Invalid message received")
  else
    match sm.current_state with
    | .normal_chat =>
      match trigger with
      | some tool_type =>
        -- transition START_TOOL happens before the orchestrator call
        let sm1 := (transition_state sm .start_tool).2
        let sm2 := { sm1 with current_tool_type := some tool_type }
        (match orch with
         | .exn e => (sm2, create_error_response sm2 e)
         | .ok r =>
           (sm2,
            { state := sm2.current_state.value
              status := r.status
              error := none
              response := r.response
              tool_type := some tool_type })
         | .nonDict =>
           -- falls through to the default NORMAL_CHAT response, with the
           -- already-advanced state
           (sm2,
            { state := sm2.current_state.value
              status := some "normal_chat"
              error := none
              response := none
              tool_type := none }))
      | none =>
        (sm,
         { state := sm.current_state.value
           status := some "normal_chat"
           error := none
           response := none
           tool_type := none })
    | .tool_operation =>
      match orch with
      | .exn e => (sm, create_error_response sm e)
      | .nonDict =>
        (sm,
         { state := sm.current_state.value
           status := some "normal_chat"
           error := none
           response := none
           tool_type := none })
      | .ok r =>
        let operation_status := (r.status.getD "").toLower
        if operation_status == "completed" || operation_status == "cancelled"
            || operation_status == "exit" then
          let action :=
            if operation_status == "completed" || operation_status == "exit" then
              AgentAction.complete_tool
            else AgentAction.cancel_tool
          let sm1 := (transition_state sm action).2
          let sm2 := { sm1 with current_tool_type := none }
          (sm2,
           { state := sm2.current_state.value
             status := r.status
             error := none
             response := some (r.response.getD "Processing your request...")
             tool_type := none })
        else
          (sm,
           { state := sm.current_state.value
             status := r.status
             error := none
             response := some (r.response.getD "Processing your request...")
             tool_type := none })

/-! ## IntentsTool._handle_withdraw (src/tools/intents_operation.py) -/

/-- Outbound chain calls _handle_withdraw can make. -/
inductive ChainCall
  | getIntentBalance
  | intentWithdraw
deriving DecidableEq, Repr

/-- The observable outcome of a _handle_withdraw run: the returned envelope
(status and response text), the chain calls attempted in order, and
whether tool_state_manager.update_operation was reached. -/
structure WithdrawOutcome where
  status : String
  response : String
  calls : List ChainCall
  opUpdated : Bool
deriving DecidableEq, Repr

/-- The `parameters` dict of the withdraw command, with the keys
_handle_withdraw reads (defaults are applied inside, as `params.get`). -/
structure WithdrawParams where
  token_symbol : Option String
  amount : Option Int
  destination_address : Option String
  destination_chain : Option String
deriving DecidableEq, Repr

/-- IntentsTool._handle_withdraw.  `balance_fetch` is what
get_intent_balance does (returns a balance or raises) and `withdraw_call`
what intent_withdraw does.  The amount guard runs before any chain call;
the balance guard runs before intent_withdraw.  On a successful
intent_withdraw the source then calls
tool_state_manager.update_operation with an `output_data` keyword that
update_operation's signature does not accept, so that call raises
TypeError inside the same try block and the handler returns the
"Failed to withdraw tokens" envelope; the operation is never updated and
the lines after that call are unreachable. -/
def handle_withdraw (account_id : String) (params : WithdrawParams)
    (balance_fetch : Except String Int) (withdraw_call : Except String String) :
    WithdrawOutcome :=
  let token_symbol := params.token_symbol.getD "NEAR"
  let amount := params.amount.getD 0
  let destination_address := params.destination_address.getD account_id
  let _destination_chain := params.destination_chain.getD "near"
  if amount ≤ 0 then
    { status := "error"
      response := "Invalid withdrawal amount. Please specify a positive amount."
      calls := []
      opUpdated := false }
  else
    match balance_fetch with
    | .error e =>
      { status := "error"
        response := "Error handling withdrawal: " ++ e
        calls := [.getIntentBalance]
        opUpdated := false }
    | .ok current_balance =>
      if current_balance < amount then
        { status := "error"
          response := "Insufficient balance. You have " ++ toString current_balance
            ++ " " ++ token_symbol ++ ", but requested to withdraw "
            ++ toString amount ++ "."
          calls := [.getIntentBalance]
          opUpdated := false }
      else
        match withdraw_call with
        | .error e =>
          { status := "error"
            response := "Failed to withdraw tokens: " ++ e
            calls := [.getIntentBalance, .intentWithdraw]
            opUpdated := false }
        | .ok _result =>
          { status := "error"
            response := "Failed to withdraw tokens: update_operation() got an unexpected keyword argument"
            calls := [.getIntentBalance, .intentWithdraw]
            opUpdated := false }

/-! ## Helper lemmas and concrete fixtures -/

theorem mem_updateFirstF {α : Type} {l : List α} {p : α → Bool} {f : α → α} {y : α}
    (hy : y ∈ (updateFirstF l p f).2) : ∃ x ∈ l, y = x ∨ y = f x := by
  induction l with
  | nil => simp [updateFirstF] at hy
  | cons x xs ih =>
    by_cases h : p x
    · simp only [updateFirstF, h, if_pos] at hy
      rcases List.mem_cons.mp hy with h1 | h1
      · exact ⟨x, List.mem_cons_self x xs, Or.inr h1⟩
      · exact ⟨y, List.mem_cons_of_mem x h1, Or.inl rfl⟩
    · simp only [updateFirstF, h, if_neg, Bool.false_eq_true, not_false_iff] at hy
      rcases List.mem_cons.mp hy with h1 | h1
      · exact ⟨x, List.mem_cons_self x xs, Or.inl h1⟩
      · rcases ih h1 with ⟨x0, hx0, hor⟩
        exact ⟨x0, List.mem_cons_of_mem x hx0, hor⟩

/-- An `initial_data` dict as the agent passes it. -/
def cInit : InitialData :=
  { requires_approval := some true
    command := some "withdraw 5 NEAR"
    status := none
    operation_metadata := [] }

/-- The empty database. -/
def db0 : DB := { tool_operations := [], tool_items := [] }

/-- A database holding one freshly started (hence COLLECTING, non-terminal)
operation of session "s". -/
def db1 : DB := (start_operation db0 "s" "twitter" (some cInit) 1 0).2

/-- A concrete stored operation of session "s" in COLLECTING state. -/
def opA : ToolOperation :=
  { id := 1
    session_id := "s"
    tool_type := "twitter"
    state := .collecting
    step := "analyzing"
    input_data := []
    output_data := [("status", JVal.s "pending")]
    metadata := { state_history := [{ state := .collecting, step := "analyzing", ts := 0 }]
                  extra := [] }
    created_at := 0
    last_updated := 0 }

/-- A database holding only `opA`. -/
def dbA : DB := { tool_operations := [opA], tool_items := [] }

/-- C1 counterexample input: `db1` already holds a non-terminal (COLLECTING)
operation for session "s". -/
theorem start_operation_conflict_counterexample :
    (db1.tool_operations.any
      (fun op => op.session_id == "s" && !isTerminalState op.state)) = true
    ∧ (start_operation db1 "s" "intents" (some cInit) 2 7).1.isSome = true
    ∧ countNonTerminal (start_operation db1 "s" "intents" (some cInit) 2 7).2 "s" = 2 := by
  decide

/-- C1 (amended): start_operation performs no conflict check at all: for
every database state — in particular one that already holds a non-terminal
operation for the session — it succeeds (never fails with
ConflictingOperation) and unconditionally inserts one more COLLECTING
operation for the session, so the count of non-terminal operations of the
session grows by one. -/
theorem start_operation_always_inserts :
    ∀ (db : DB) (sid ttype : String) (init : InitialData) (newId now : Nat),
      ∃ op, (start_operation db sid ttype (some init) newId now).1 = some op
        ∧ (start_operation db sid ttype (some init) newId now).2.tool_operations
            = db.tool_operations ++ [op]
        ∧ op.state = .collecting ∧ op.session_id = sid
        ∧ countNonTerminal (start_operation db sid ttype (some init) newId now).2 sid
            = countNonTerminal db sid + 1 := by
  intro db sid ttype init newId now
  refine ⟨_, rfl, rfl, rfl, rfl, ?_⟩
  simp [countNonTerminal, start_operation, isTerminalState, List.filter_append]

/-- C2: update_operation changes an operation's state only along the table
{INACTIVE→COLLECTING; COLLECTING→APPROVING|ERROR|CANCELLED;
APPROVING→EXECUTING|COLLECTING|ERROR|CANCELLED;
EXECUTING→COMPLETED|CANCELLED|ERROR}; for a pair outside the table it
returns false and the database — in particular the stored operation — is
left entirely unchanged, while for a pair in the table it returns true and
the stored operation's state becomes the requested one. -/
theorem update_operation_transition_table :
    ∀ (db : DB) (sid : String) (oid : Nat) (s : ToolOperationState)
      (step : Option String) (meta : Option MetaPatch)
      (cu : Option (List (String × JVal))) (now : Nat) (op : ToolOperation),
      db.tool_operations.find? (fun o => o.id == oid && o.session_id == sid) = some op →
      (is_valid_transition op.state s = false →
        update_operation db sid oid (some s) step meta cu now = (false, db))
      ∧ (is_valid_transition op.state s = true →
        (update_operation db sid oid (some s) step meta cu now).1 = true
        ∧ ∃ op', findOpById (update_operation db sid oid (some s) step meta cu now).2 oid
              = some op' ∧ op'.state = s) := by
  intro db sid oid s step meta cu now op hfind
  constructor
  · intro hbad
    simp [update_operation, hfind, hbad]
  · intro hok
    have hid : (op.id == oid) = true := by
      have := List.find?_some hfind
      exact (Bool.and_eq_true _ _).mp this |>.1
    have hmem : op ∈ db.tool_operations := List.mem_of_find?_eq_some hfind
    have hsome : (db.tool_operations.find? (fun o => o.id == oid)).isSome := by
      exact List.find?_isSome.mpr ⟨op, hmem, hid⟩
    have hpres : ∀ x : ToolOperation,
        ((applySetOp op (some s) step meta cu now x).id == oid) = (x.id == oid) :=
      fun x => rfl
    have hmap := find?_updateFirstF db.tool_operations (fun o => o.id == oid)
      (applySetOp op (some s) step meta cu now) hpres
    constructor
    · simp only [update_operation, hfind, hok, if_pos]
      rw [updateFirstF_fst]
      exact hsome
    · simp only [update_operation, hfind, hok, if_pos, findOpById]
      rw [hmap]
      rcases Option.isSome_iff_exists.mp hsome with ⟨x0, hx0⟩
      exact ⟨applySetOp op (some s) step meta cu now x0, by rw [hx0]; rfl, rfl⟩

/-- C2 witness: in the concrete database `dbA` the stored operation is
COLLECTING; requesting COMPLETED is outside the table, so update_operation
returns false and leaves the database unchanged. -/
theorem update_operation_transition_table_witness :
    update_operation dbA "s" 1 (some .completed) none none none 3 = (false, dbA) :=
  (update_operation_transition_table dbA "s" 1 .completed none none none 3 opA
    (by decide)).1 (by decide)

/-- C3 counterexample: starting an operation and then successfully
transitioning it COLLECTING→APPROVING leaves exactly one history entry in
metadata.state_history, not one per state entered (two). -/
theorem state_history_counterexample :
    (update_operation db1 "s" 1 (some .approving) none none none 3).1 = true
    ∧ ((findOpById (update_operation db1 "s" 1 (some .approving) none none none 3).2 1).map
        (fun o => (o.state, o.metadata.state_history.length)))
      = some (ToolOperationState.approving, 1) := by
  decide

/-- C3 (amended): only start_operation writes a state-history entry (the
initial COLLECTING entry); update_operation, when the caller passes no
metadata dict, never appends to state_history — every operation stored
after the update keeps the metadata (hence the state_history) of an
operation already stored before it, whatever state transition was
performed. -/
theorem state_history_only_on_start :
    (∀ (db : DB) (sid ttype : String) (init : InitialData) (newId now : Nat)
      (op : ToolOperation),
      (start_operation db sid ttype (some init) newId now).1 = some op →
      op.metadata.state_history = [{ state := .collecting, step := "analyzing", ts := now }])
    ∧ (∀ (db : DB) (sid : String) (oid : Nat) (st : Option ToolOperationState)
        (step : Option String) (cu : Option (List (String × JVal))) (now : Nat)
        (op' : ToolOperation),
        op' ∈ (update_operation db sid oid st step none cu now).2.tool_operations →
        ∃ op, op ∈ db.tool_operations ∧ op.id = op'.id ∧ op'.metadata = op.metadata) := by
  constructor
  · intro db sid ttype init newId now op h
    simp only [start_operation, Option.some.injEq] at h
    rw [← h]
  · intro db sid oid st step cu now op' hmem
    cases hfind : db.tool_operations.find?
        (fun o => o.id == oid && o.session_id == sid) with
    | none =>
      simp only [update_operation, hfind] at hmem
      exact ⟨op', hmem, rfl, rfl⟩
    | some cur =>
      have hgen : op' ∈ (updateFirstF db.tool_operations (fun o => o.id == oid)
          (applySetOp cur st step none cu now)).2 ∨ op' ∈ db.tool_operations := by
        cases st with
        | none =>
          simp [update_operation, hfind] at hmem
          exact Or.inl hmem
        | some s =>
          cases hok : is_valid_transition cur.state s with
          | true =>
            simp [update_operation, hfind, hok] at hmem
            exact Or.inl hmem
          | false =>
            simp [update_operation, hfind, hok] at hmem
            exact Or.inr hmem
      rcases hgen with hgen | hgen
      · rcases mem_updateFirstF hgen with ⟨x0, hx0, hor⟩
        rcases hor with h1 | h1
        · exact ⟨op', h1 ▸ hx0, rfl, rfl⟩
        · refine ⟨x0, hx0, ?_, ?_⟩ <;> rw [h1] <;> rfl
      · exact ⟨op', hgen, rfl, rfl⟩

/-- The operation of `dbA` after an update that only bumps last_updated. -/
def opA5 : ToolOperation := { opA with last_updated := 5 }

/-- C3 witness: a concrete update (no state change, no metadata) stores an
operation whose metadata — hence state_history — is that of an operation
already present before the call. -/
theorem state_history_only_on_start_witness :
    ∃ op, op ∈ dbA.tool_operations ∧ op.id = opA5.id ∧ opA5.metadata = op.metadata :=
  state_history_only_on_start.2 dbA "s" 1 none none none 5 opA5 (by decide)

/-- Helper: whenever update_operation is asked for a state and returns
true, the first stored operation with that id now carries that state. -/
theorem update_operation_true_sets_state {db : DB} {sid : String} {oid : Nat}
    {s : ToolOperationState} {step : Option String} {meta : Option MetaPatch}
    {cu : Option (List (String × JVal))} {now : Nat}
    (h : (update_operation db sid oid (some s) step meta cu now).1 = true) :
    ∃ op', findOpById (update_operation db sid oid (some s) step meta cu now).2 oid
      = some op' ∧ op'.state = s := by
  cases hfind : db.tool_operations.find?
      (fun o => o.id == oid && o.session_id == sid) with
  | none => simp [update_operation, hfind] at h
  | some cur =>
    cases hok : is_valid_transition cur.state s with
    | false => simp [update_operation, hfind, hok] at h
    | true =>
      simp only [update_operation, hfind, hok, if_true] at h ⊢
      rw [updateFirstF_fst] at h
      have hpres : ∀ x : ToolOperation,
          ((applySetOp cur (some s) step meta cu now x).id == oid) = (x.id == oid) :=
        fun x => rfl
      have hmap := find?_updateFirstF db.tool_operations (fun o => o.id == oid)
        (applySetOp cur (some s) step meta cu now) hpres
      simp only [findOpById]
      rw [hmap]
      rcases Option.isSome_iff_exists.mp h with ⟨x0, hx0⟩
      exact ⟨applySetOp cur (some s) step meta cu now x0, by rw [hx0]; rfl, rfl⟩

/-- C4: end_operation maps APPROVED→COMPLETED, REJECTED→CANCELLED,
FAILED→ERROR (and any other status to ERROR), each of which is terminal;
whenever it returns true, the stored operation's state is that terminal
state. -/
theorem end_operation_maps_to_terminal :
    ∀ (db : DB) (sid : String) (oid : Nat) (status : OperationStatus)
      (reason : Option String) (resp : Option (List (String × JVal)))
      (ra sch : Bool) (now : Nat),
      (end_operation db sid oid status reason resp ra sch now).1 = true →
      get_final_state .approved = .completed
      ∧ get_final_state .rejected = .cancelled
      ∧ get_final_state .failed = .error
      ∧ isTerminalState (get_final_state status) = true
      ∧ ∃ op', findOpById (end_operation db sid oid status reason resp ra sch now).2 oid
            = some op' ∧ op'.state = get_final_state status := by
  intro db sid oid status reason resp ra sch now htrue
  refine ⟨rfl, rfl, rfl, by cases status <;> decide, ?_⟩
  cases hfind : db.tool_operations.find?
      (fun o => o.id == oid && o.session_id == sid) with
  | none => simp [end_operation, hfind] at htrue
  | some cur =>
    simp only [end_operation, hfind] at htrue ⊢
    exact update_operation_true_sets_state htrue

/-- The operation of `dbA` moved to EXECUTING state. -/
def opC : ToolOperation := { opA with state := .executing, step := "executing" }

/-- A database holding one EXECUTING operation for session "s". -/
def dbC : DB := { tool_operations := [opC], tool_items := [] }

/-- C4 witness: ending the EXECUTING operation of `dbC` with status
APPROVED returns true and leaves the stored operation COMPLETED. -/
theorem end_operation_maps_to_terminal_witness :
    get_final_state .approved = .completed
    ∧ get_final_state .rejected = .cancelled
    ∧ get_final_state .failed = .error
    ∧ isTerminalState (get_final_state .approved) = true
    ∧ ∃ op', findOpById (end_operation dbC "s" 1 .approved none none true false 5).2 1
          = some op' ∧ op'.state = get_final_state .approved :=
  end_operation_maps_to_terminal dbC "s" 1 .approved none none true false 5 (by decide)

/-- The operation of `dbA` in terminal COMPLETED state. -/
def opD : ToolOperation := { opA with state := .completed, step := "completed" }

/-- A database whose only operation for session "s" is terminal. -/
def dbD : DB := { tool_operations := [opD], tool_items := [] }

/-- C5 counterexample: every operation stored for session "s" in `dbD` is
terminal, yet the by-session lookup still returns one instead of nothing. -/
theorem get_operation_terminal_counterexample :
    (∀ op ∈ dbD.tool_operations, isTerminalState op.state = true)
    ∧ get_operation dbD "s" = some opD := by
  decide

/-- C5 (amended): the by-session lookup ignores operation state entirely:
it returns the first stored operation whose session matches — terminal or
not — and returns nothing exactly when no operation at all is stored for
the session. -/
theorem get_operation_ignores_state :
    ∀ (db : DB) (sid : String),
      (get_operation db sid = none ↔ ∀ op ∈ db.tool_operations, op.session_id ≠ sid)
      ∧ ∀ op, get_operation db sid = some op →
          op ∈ db.tool_operations ∧ op.session_id = sid := by
  intro db sid
  constructor
  · simp [get_operation, get_tool_operation_state, List.find?_eq_none]
  · intro op hsome
    rw [get_operation, get_tool_operation_state] at hsome
    exact ⟨List.mem_of_find?_eq_some hsome, by simpa using List.find?_some hsome⟩

/-- C5 witness: the characterization instantiated at the concrete database
`dbD` and session "s". -/
theorem get_operation_ignores_state_witness :
    (get_operation dbD "s" = none ↔ ∀ op ∈ dbD.tool_operations, op.session_id ≠ "s")
    ∧ ∀ op, get_operation dbD "s" = some op →
        op ∈ dbD.tool_operations ∧ op.session_id = "s" :=
  get_operation_ignores_state dbD "s"

/-- A stored item of operation 1 whose status is already terminal
(EXECUTED) and whose state is COMPLETED. -/
def itE : ToolItem :=
  { id := 1
    session_id := "s"
    tool_operation_id := 1
    state := .completed
    status := .executed
    api_response := some [("success", JVal.b true)]
    executed_time := some 2
    last_updated := 2
    retry_count := 0
    last_error := none
    metadata := [] }

/-- A database holding only the terminal item `itE`. -/
def dbE : DB := { tool_operations := [], tool_items := [itE] }

/-- C6 counterexample: `itE` has terminal status EXECUTED, yet
update_operation_items rewrites its state and status (to COLLECTING /
PENDING) and sync_items_to_operation_status rewrites its state (to
CANCELLED) — fields other than last_error change after terminality. -/
theorem terminal_item_mutation_counterexample :
    isTerminalStatus itE.status = true
    ∧ ((update_operation_items dbE 1 [1] .collecting .pending 9).2.tool_items.find?
        (fun it => it.id == 1)).map (fun it => (it.status, it.state))
      = some (OperationStatus.pending, ToolOperationState.collecting)
    ∧ ((sync_items_to_operation_status dbE 1 .rejected 9).tool_items.find?
        (fun it => it.id == 1)).map (fun it => it.state)
      = some ToolOperationState.cancelled := by
  decide

/-- C6 (amended): the bulk item updaters rewrite every matched item
unconditionally — an item whose status is already terminal is not exempt:
update_operation_items overwrites its state and status, and
sync_items_to_operation_status overwrites its state, whenever the item
matches the filter; terminal-item immutability is not enforced anywhere. -/
theorem bulk_item_updates_unconditional :
    (∀ (db : DB) (oid : Nat) (ids : List Nat) (s : ToolOperationState)
       (st : OperationStatus) (now : Nat) (it : ToolItem),
       it ∈ db.tool_items → it.id ∈ ids → it.tool_operation_id = oid →
       { it with state := s, status := st, last_updated := now }
         ∈ (update_operation_items db oid ids s st now).2.tool_items)
    ∧ (∀ (db : DB) (oid : Nat) (status : OperationStatus) (ns : ToolOperationState)
        (now : Nat) (it : ToolItem),
        it ∈ db.tool_items → it.tool_operation_id = oid → statusToState status = some ns →
        { it with state := ns, last_updated := now }
          ∈ (sync_items_to_operation_status db oid status now).tool_items) := by
  constructor
  · intro db oid ids s st now it hmem hid hop
    simp only [update_operation_items]
    exact List.mem_map.mpr ⟨it, hmem, by simp [hid, hop]⟩
  · intro db oid status ns now it hmem hop hmap
    simp only [sync_items_to_operation_status, hmap]
    exact List.mem_map.mpr ⟨it, hmem, by simp [hop]⟩

/-- C6 witness: the terminal item `itE` matched by a concrete
update_operation_items call is rewritten to COLLECTING / PENDING. -/
theorem bulk_item_updates_unconditional_witness :
    { itE with state := ToolOperationState.collecting,
               status := OperationStatus.pending, last_updated := 9 }
      ∈ (update_operation_items dbE 1 [1] .collecting .pending 9).2.tool_items :=
  bulk_item_updates_unconditional.1 dbE 1 [1] .collecting .pending 9 itE
    (by decide) (by decide) rfl

/-- An agent bound to a tool operation. -/
def smT : AgentSM := { current_state := .tool_operation, current_tool_type := some "twitter" }

/-- An orchestrator result reporting completion. -/
def rCompleted : OrchResult := { status := some "completed", response := none }

/-- C7: while the agent is in TOOL_OPERATION and the orchestrator returns
a dict with a status, the agent transitions back to NORMAL_CHAT exactly
when that status (case-insensitively) is completed, cancelled or exit; for
any other status the whole manager state is left unchanged, so the agent
remains in TOOL_OPERATION. -/
theorem handle_agent_state_exit_statuses :
    ∀ (sm : AgentSM) (msg : String) (trig : Option String) (r : OrchResult) (s : String),
      msg ≠ "" → sm.current_state = .tool_operation → r.status = some s →
      (((handle_agent_state sm msg trig (.ok r)).1.current_state = .normal_chat)
        ↔ (s.toLower = "completed" ∨ s.toLower = "cancelled" ∨ s.toLower = "exit"))
      ∧ (¬(s.toLower = "completed" ∨ s.toLower = "cancelled" ∨ s.toLower = "exit") →
          (handle_agent_state sm msg trig (.ok r)).1 = sm) := by
  intro sm msg trig r s hmsg hst hstat
  obtain ⟨cs, tt⟩ := sm
  simp only at hst
  subst hst
  have hm : (msg == "") = false := beq_eq_false_iff_ne.mpr hmsg
  by_cases h1 : s.toLower = "completed"
  · have hb : (s.toLower == "completed" || s.toLower == "cancelled"
        || s.toLower == "exit") = true := by rw [h1]; decide
    have hd : (s.toLower == "completed" || s.toLower == "exit") = true := by
      rw [h1]; decide
    simp [handle_agent_state, hm, hstat, hb, hd, transition_state, state_transitions, h1]
  · by_cases h2 : s.toLower = "cancelled"
    · have hb : (s.toLower == "completed" || s.toLower == "cancelled"
          || s.toLower == "exit") = true := by rw [h2]; decide
      have hd : (s.toLower == "completed" || s.toLower == "exit") = false := by
        rw [h2]; decide
      simp [handle_agent_state, hm, hstat, hb, hd, transition_state, state_transitions, h2]
    · by_cases h3 : s.toLower = "exit"
      · have hb : (s.toLower == "completed" || s.toLower == "cancelled"
            || s.toLower == "exit") = true := by rw [h3]; decide
        have hd : (s.toLower == "completed" || s.toLower == "exit") = true := by
          rw [h3]; decide
        simp [handle_agent_state, hm, hstat, hb, hd, transition_state,
          state_transitions, h3]
      · have hb : (s.toLower == "completed" || s.toLower == "cancelled"
            || s.toLower == "exit") = false := by
          rw [beq_eq_false_iff_ne.mpr h1, beq_eq_false_iff_ne.mpr h2,
            beq_eq_false_iff_ne.mpr h3]
          rfl
        simp [handle_agent_state, hm, hstat, hb, h1, h2, h3]

/-- C7 witness: with status "completed" the agent leaves TOOL_OPERATION
for NORMAL_CHAT. -/
theorem handle_agent_state_exit_statuses_witness :
    (((handle_agent_state smT "hi" none (.ok rCompleted)).1.current_state = .normal_chat)
      ↔ (("completed" : String).toLower = "completed"
         ∨ ("completed" : String).toLower = "cancelled"
         ∨ ("completed" : String).toLower = "exit"))
    ∧ (¬(("completed" : String).toLower = "completed"
         ∨ ("completed" : String).toLower = "cancelled"
         ∨ ("completed" : String).toLower = "exit") →
        (handle_agent_state smT "hi" none (.ok rCompleted)).1 = smT) :=
  handle_agent_state_exit_statuses smT "hi" none rCompleted "completed"
    (by decide) rfl rfl

/-- C8 counterexample: an exception while handling a message in
TOOL_OPERATION yields the standardized error response, but the agent stays
in TOOL_OPERATION — it is not transitioned to NORMAL_CHAT. -/
theorem agent_exception_counterexample :
    (handle_agent_state smT "hi" none (.exn "boom")).1.current_state = .tool_operation
    ∧ (handle_agent_state smT "hi" none (.exn "boom")).2.status = some "error" := by
  decide

/-- C8 (amended): an unexpected exception during TOOL_OPERATION handling
is caught and turned into the standardized error reply (status "error",
carrying the exception text), but the manager state is returned entirely
unchanged: the error handlers deliberately do not transition the agent to
NORMAL_CHAT. -/
theorem handle_agent_state_exception_no_transition :
    ∀ (sm : AgentSM) (msg e : String) (trig : Option String),
      msg ≠ "" → sm.current_state = .tool_operation →
      handle_agent_state sm msg trig (.exn e) = (sm, create_error_response sm e)
      ∧ (create_error_response sm e).status = some "error"
      ∧ (create_error_response sm e).error = some e := by
  intro sm msg e trig hmsg hst
  obtain ⟨cs, tt⟩ := sm
  simp only at hst
  subst hst
  have hm : (msg == "") = false := beq_eq_false_iff_ne.mpr hmsg
  refine ⟨?_, rfl, rfl⟩
  simp [handle_agent_state, hm]

/-- C8 witness: the exception behaviour at a concrete manager state,
message and exception. -/
theorem handle_agent_state_exception_no_transition_witness :
    handle_agent_state smT "hi" "twitter" (.exn "boom")
      = (smT, create_error_response smT "boom")
    ∧ (create_error_response smT "boom").status = some "error"
    ∧ (create_error_response smT "boom").error = some "boom" :=
  handle_agent_state_exception_no_transition smT "hi" "boom" (some "twitter")
    (by decide) rfl

/-- C10: _handle_withdraw refuses a non-positive amount with status
"error" before any chain call, and refuses an amount exceeding the current
intents balance with status "error" and the insufficient-balance message
after only the balance read — intent_withdraw is never called and the
operation is never updated, so no funds move. -/
theorem handle_withdraw_guards :
    ∀ (acct : String) (p : WithdrawParams) (bal : Int)
      (bf : Except String Int) (wc : Except String String),
      (p.amount.getD 0 ≤ 0 →
        (handle_withdraw acct p bf wc).status = "error"
        ∧ (handle_withdraw acct p bf wc).calls = []
        ∧ (handle_withdraw acct p bf wc).opUpdated = false)
      ∧ (0 < p.amount.getD 0 → bf = .ok bal → bal < p.amount.getD 0 →
        (handle_withdraw acct p bf wc).status = "error"
        ∧ (handle_withdraw acct p bf wc).response
            = "Insufficient balance. You have " ++ toString bal ++ " "
              ++ p.token_symbol.getD "NEAR" ++ ", but requested to withdraw "
              ++ toString (p.amount.getD 0) ++ "."
        ∧ ChainCall.intentWithdraw ∉ (handle_withdraw acct p bf wc).calls
        ∧ (handle_withdraw acct p bf wc).opUpdated = false) := by
  intro acct p bal bf wc
  constructor
  · intro hneg
    simp [handle_withdraw, hneg]
  · intro hpos hbf hlt
    subst hbf
    have hn : ¬ (p.amount.getD 0 ≤ 0) := not_le.mpr hpos
    simp [handle_withdraw, hn, hlt]

/-- Withdraw parameters asking for 5 tokens. -/
def pW5 : WithdrawParams :=
  { token_symbol := none, amount := some 5, destination_address := none,
    destination_chain := none }

/-- Withdraw parameters with no amount (defaults to 0). -/
def pW0 : WithdrawParams :=
  { token_symbol := none, amount := none, destination_address := none,
    destination_chain := none }

/-- C10 witness: requesting 5 with balance 2 is refused with the
insufficient-balance error and no intent_withdraw call; requesting the
default amount 0 is refused before any chain call. -/
theorem handle_withdraw_guards_witness :
    ((handle_withdraw "rin.near" pW5 (.ok 2) (.ok "tx")).status = "error"
     ∧ (handle_withdraw "rin.near" pW5 (.ok 2) (.ok "tx")).response
         = "Insufficient balance. You have " ++ toString (2 : Int) ++ " "
           ++ pW5.token_symbol.getD "NEAR" ++ ", but requested to withdraw "
           ++ toString (pW5.amount.getD 0) ++ "."
     ∧ ChainCall.intentWithdraw ∉ (handle_withdraw "rin.near" pW5 (.ok 2) (.ok "tx")).calls
     ∧ (handle_withdraw "rin.near" pW5 (.ok 2) (.ok "tx")).opUpdated = false)
    ∧ ((handle_withdraw "rin.near" pW0 (.ok 2) (.ok "tx")).status = "error"
     ∧ (handle_withdraw "rin.near" pW0 (.ok 2) (.ok "tx")).calls = []
     ∧ (handle_withdraw "rin.near" pW0 (.ok 2) (.ok "tx")).opUpdated = false) :=
  ⟨(handle_withdraw_guards "rin.near" pW5 2 (.ok 2) (.ok "tx")).2
      (by decide) rfl (by decide),
   (handle_withdraw_guards "rin.near" pW0 2 (.ok 2) (.ok "tx")).1 (by decide)⟩
